import Mathlib

/-!
# Verification development for the OpenUSP CWMP (TR-069) subsystem

A shallow embedding, in Lean 4, of the CWMP-facing parts of the OpenUSP
control plane:

* the TR-069 message and fault-code definitions and the ACS HTTP/SOAP
  server (`internal/cwmp`: `acs.go` / message definitions),
* the controller-side CWMP device manager (`internal/controller/cwmp.go`),
* the Mongo-backed CWMP store (`internal/db/cwmp.go`), and
* the REST parameter handler (`pkg/apiserver` CWMP handlers).

Go maps are embedded as association lists with in-order update; the Mongo
collections are embedded as lists of records together with the driver's
documented write semantics (`InsertOne` fails on a duplicate `_id`;
`UpdateOne`/`ReplaceOne` with an upsert option and an equality filter on
the unique key replace the first matching record or append; an ordered
`BulkWrite` executes its operations sequentially and stops at the first
failure).  `xml` parse/marshal outcomes on inbound HTTP bodies are
reified as an inductive request-body type, since the byte-level XML codec
is outside the embedding.  The `net/http` response writer is embedded
with its documented rule that a body is never sent for status codes
1xx/204/304 (`bodyAllowedForStatus`).  Time stamps are passed explicitly
as natural numbers.
-/

namespace OpenUsp

/-! ## TR-069 message model (`internal/cwmp`, message definitions) -/

/-- `cwmp.ParameterValueStruct`: Name / Value / Type attribute. -/
structure ParameterValueStruct where
  name  : String
  value : String
  type  : String
  deriving Repr, DecidableEq

/-- `cwmp.DeviceIdStruct`: the four-part TR-069 device identity. -/
structure DeviceIdStruct where
  manufacturer : String
  oui          : String
  productClass : String
  serialNumber : String
  deriving Repr, DecidableEq

/-- `cwmp.EventStruct`: event code plus command key. -/
structure EventStruct where
  eventCode  : String
  commandKey : String
  deriving Repr, DecidableEq

/-- `cwmp.Inform`: the Inform RPC body sent by a device. -/
structure Inform where
  deviceId      : DeviceIdStruct
  event         : List EventStruct
  maxEnvelopes  : Nat
  currentTime   : Nat
  retryCount    : Nat
  parameterList : List ParameterValueStruct
  deriving Repr, DecidableEq

/-- `cwmp.InformResponse`: MaxEnvelopes only. -/
structure InformResponse where
  maxEnvelopes : Nat
  deriving Repr, DecidableEq

/-- `cwmp.GetParameterValuesResponse`. -/
structure GetParameterValuesResponse where
  parameterList : List ParameterValueStruct
  deriving Repr, DecidableEq

/-- `cwmp.SetParameterValuesResponse`. -/
structure SetParameterValuesResponse where
  status : Nat
  deriving Repr, DecidableEq

/-- `cwmp.CWMPFault`: the fault detail carried inside a SOAP Fault. -/
structure CWMPFault where
  faultCode   : Nat
  faultString : String
  deriving Repr, DecidableEq

/-- `cwmp.SOAPFault`: faultcode / faultstring / detail. -/
structure SOAPFault where
  faultCode   : String
  faultString : String
  detail      : Option CWMPFault
  deriving Repr, DecidableEq

/-- `cwmp.SOAPHeader`: cwmp:ID, HoldRequests, NoMoreRequests, SessionTimeout.
In Go all four fields are value types whose zero values are `""`, `false`,
`false`, `0`; `&SOAPHeader{}` yields exactly those. -/
structure SOAPHeader where
  id             : String
  holdRequests   : Bool
  noMoreRequests : Bool
  sessionTimeout : Nat
  deriving Repr, DecidableEq

/-- The possible contents of a SOAP Body, reifying the `strings.Contains`
dispatch of `AcsServer.processSOAPRequest` (Inform, then
GetParameterValuesResponse, then SetParameterValuesResponse, anything
else falls through to the default branch). -/
inductive SOAPBodyContent where
  | empty : SOAPBodyContent
  | inform (i : Inform) : SOAPBodyContent
  | informResponse (r : InformResponse) : SOAPBodyContent
  | getParameterValuesResponse (r : GetParameterValuesResponse) : SOAPBodyContent
  | setParameterValuesResponse (r : SetParameterValuesResponse) : SOAPBodyContent
  | fault (f : SOAPFault) : SOAPBodyContent
  deriving Repr, DecidableEq

/-- `cwmp.SOAPEnvelope`: namespaces, optional header, body. -/
structure SOAPEnvelope where
  soapNS : String
  cwmpNS : String
  xsiNS  : String
  xsdNS  : String
  header : Option SOAPHeader
  body   : SOAPBodyContent
  deriving Repr, DecidableEq

/-! ## TR-069 fault-code constants (`internal/cwmp`, message definitions) -/

/-- `FaultMethodNotSupported = 9000`. -/
def FaultMethodNotSupported : Nat := 9000

/-- `FaultRequestDenied = 9001`. -/
def FaultRequestDenied : Nat := 9001

/-- `FaultInternalError = 9002`. -/
def FaultInternalError : Nat := 9002

/-- `FaultInvalidArguments = 9003`. -/
def FaultInvalidArguments : Nat := 9003

/-- `FaultResourcesExceeded = 9004`. -/
def FaultResourcesExceeded : Nat := 9004

/-- `FaultInvalidParameterName = 9005`. -/
def FaultInvalidParameterName : Nat := 9005

/-- `FaultInvalidParameterType = 9006`. -/
def FaultInvalidParameterType : Nat := 9006

/-- `FaultInvalidParameterValue = 9007`. -/
def FaultInvalidParameterValue : Nat := 9007

/-- `FaultAttemptToSetNonWritableParameter = 9008`. -/
def FaultAttemptToSetNonWritableParameter : Nat := 9008

/-- `FaultNotificationRequestRejected = 9009`. -/
def FaultNotificationRequestRejected : Nat := 9009

/-- `FaultDownloadFailure = 9010`. -/
def FaultDownloadFailure : Nat := 9010

/-- `FaultUploadFailure = 9011`. -/
def FaultUploadFailure : Nat := 9011

/-- `FaultFileTransferServerAuthenticationFailure = 9012`. -/
def FaultFileTransferServerAuthenticationFailure : Nat := 9012

/-- `FaultUnsupportedProtocolForFileTransfer = 9013`. -/
def FaultUnsupportedProtocolForFileTransfer : Nat := 9013

/-- `FaultFileTransferFailure = 9014`. -/
def FaultFileTransferFailure : Nat := 9014

/-- `FaultFileTransferFailureContactServer = 9015`. -/
def FaultFileTransferFailureContactServer : Nat := 9015

/-- `FaultFileTransferFailureAccessFile = 9016`. -/
def FaultFileTransferFailureAccessFile : Nat := 9016

/-- `FaultFileTransferFailureCompleteDownload = 9017`. -/
def FaultFileTransferFailureCompleteDownload : Nat := 9017

/-- `FaultFileTransferFailureFileCorrupted = 9018`. -/
def FaultFileTransferFailureFileCorrupted : Nat := 9018

/-- `FaultFileTransferFailureFileAuthentication = 9019`. -/
def FaultFileTransferFailureFileAuthentication : Nat := 9019

/-- The CWMP fault-code constant block of `internal/cwmp`, in source
declaration order. -/
def cwmpFaultCodes : List Nat :=
  [ FaultMethodNotSupported
  , FaultRequestDenied
  , FaultInternalError
  , FaultInvalidArguments
  , FaultResourcesExceeded
  , FaultInvalidParameterName
  , FaultInvalidParameterType
  , FaultInvalidParameterValue
  , FaultAttemptToSetNonWritableParameter
  , FaultNotificationRequestRejected
  , FaultDownloadFailure
  , FaultUploadFailure
  , FaultFileTransferServerAuthenticationFailure
  , FaultUnsupportedProtocolForFileTransfer
  , FaultFileTransferFailure
  , FaultFileTransferFailureContactServer
  , FaultFileTransferFailureAccessFile
  , FaultFileTransferFailureCompleteDownload
  , FaultFileTransferFailureFileCorrupted
  , FaultFileTransferFailureFileAuthentication ]

/-! ## CWMP store records (`internal/db/cwmp.go`) -/

/-- `db.CwmpParameter`: one record of the `cwmpparams` collection.
`_id` is `"<deviceId>_<path>"` as built by the controller; the collection
carries a unique index on `(device_id, path)` (`createCwmpIndexes`). -/
structure CwmpParameter where
  id         : String
  deviceID   : String
  path       : String
  value      : String
  type       : String
  writable   : Bool
  lastUpdate : Nat
  deriving Repr, DecidableEq

/-- `db.CwmpDevice`, restricted to the fields the controller's
`storeDeviceInDB` populates.  `_id` is the canonical device-id string. -/
structure DbCwmpDevice where
  id                   : String
  oui                  : String
  productClass         : String
  serialNumber         : String
  manufacturer         : String
  hardwareVersion      : String
  softwareVersion      : String
  connectionRequestURL : String
  lastInform           : Nat
  ipAddress            : String
  parameters           : List (String × String)
  createdAt            : Nat
  updatedAt            : Nat
  deriving Repr, DecidableEq

/-- The `(device_id, path)` key of the unique index on `cwmpparams`. -/
def CwmpParameter.key (p : CwmpParameter) : String × String :=
  (p.deviceID, p.path)

/-- One `UpdateOne`/`ReplaceOne` with `SetUpsert(true)` against the filter
`{device_id: p.deviceID, path: p.Path}`: replace the first record matching
the filter, or append the record when none matches. -/
def upsertCwmpParameter (store : List CwmpParameter) (p : CwmpParameter) :
    List CwmpParameter :=
  match store with
  | [] => [p]
  | q :: rest =>
      if q.deviceID = p.deviceID ∧ q.path = p.path then p :: rest
      else q :: upsertCwmpParameter rest p

/-- Outcome oracle for the store: for each write the driver either
succeeds or reports an error (network fault, write concern, …).  A call
is a list of `(record, thisWriteFails)` pairs. -/
abbrev WriteOp := CwmpParameter × Bool

/-- `CwmpDb.UpsertCwmpParameters` (`internal/db/cwmp.go`): builds one
`ReplaceOne`-with-upsert model per parameter and submits them as a single
ordered `BulkWrite`.  An ordered bulk write executes its operations
sequentially and stops at the first failing operation, leaving the
writes that preceded it in place; the call then returns that error. -/
def UpsertCwmpParameters (store : List CwmpParameter) (ops : List WriteOp) :
    List CwmpParameter × Option String :=
  match ops with
  | [] => (store, none)
  | (p, fails) :: rest =>
      if fails then (store, some "bulk write error")
      else UpsertCwmpParameters (upsertCwmpParameter store p) rest

/-- `CwmpManager.updateDeviceParametersInDB`
(`internal/controller/cwmp.go`): one `UpdateOne`-with-upsert per
parameter, keyed `{device_id, path}`, executed in list order inside a
`for` loop that returns on the first error — so the writes that preceded
the failing one remain in place.  `mkControllerParam` is the
`db.CwmpParameter` record the loop body builds for one parameter. -/
def mkControllerParam (deviceId : String) (now : Nat)
    (param : ParameterValueStruct) : CwmpParameter :=
  { id := deviceId ++ "_" ++ param.name
  , deviceID := deviceId
  , path := param.name
  , value := param.value
  , type := param.type
  , writable := true
  , lastUpdate := now }

def updateDeviceParametersInDB (deviceId : String) (now : Nat)
    (store : List CwmpParameter)
    (ops : List (ParameterValueStruct × Bool)) :
    List CwmpParameter × Option String :=
  match ops with
  | [] => (store, none)
  | (param, fails) :: rest =>
      if fails then (store, some "update error")
      else
        updateDeviceParametersInDB deviceId now
          (upsertCwmpParameter store (mkControllerParam deviceId now param))
          rest

/-- `CwmpDb.GetCwmpParametersByPath`: `Find` with the filter
`{device_id: deviceID, path: {$in: paths}}`. -/
def GetCwmpParametersByPath (store : List CwmpParameter)
    (deviceID : String) (paths : List String) : List CwmpParameter :=
  store.filter (fun p => p.deviceID = deviceID ∧ p.path ∈ paths)

/-- The uniqueness guarantee of the `(device_id, path)` unique index on
the `cwmpparams` collection: no two records share a key. -/
def paramKeysUnique (store : List CwmpParameter) : Prop :=
  (store.map CwmpParameter.key).Nodup

/-! ## Go map embedding

Go maps keyed by strings are embedded as association lists;
`m[k] = v` replaces the first binding of `k` or appends a new one, and
`m[k]` is the first binding. -/

/-- Go map read `m[k]`. -/
def mapLookup {α : Type} (m : List (String × α)) (k : String) : Option α :=
  match m with
  | [] => none
  | (k', v) :: rest => if k' = k then some v else mapLookup rest k

/-- Go map write `m[k] = v`. -/
def mapInsert {α : Type} (m : List (String × α)) (k : String) (v : α) :
    List (String × α) :=
  match m with
  | [] => [(k, v)]
  | (k', v') :: rest =>
      if k' = k then (k, v) :: rest else (k', v') :: mapInsert rest k v

/-! ## ACS session engine (`internal/cwmp`, `AcsServer`) -/

/-- `cwmp.SessionState` constants (`iota`): New, Inform, Active, Closed. -/
inductive SessionState where
  | new : SessionState
  | inform : SessionState
  | active : SessionState
  | closed : SessionState
  deriving Repr, DecidableEq

/-- The server-initiated RPCs that `AcsServer` queues
(`GetParameterValues` / `SetParameterValues` / `RebootDevice` construct
these and hand them to `SendRPC`). -/
inductive QueuedRPC where
  | getParameterValues (parameterNames : List String) : QueuedRPC
  | setParameterValues (parameterList : List ParameterValueStruct)
      (parameterKey : String) : QueuedRPC
  | reboot (commandKey : String) : QueuedRPC
  deriving Repr, DecidableEq

/-- `cwmp.CwmpSession`: the per-device session record kept by the ACS. -/
structure CwmpSession where
  deviceId     : String
  sessionId    : String
  createdTime  : Nat
  lastActivity : Nat
  holdRequests : Bool
  maxEnvelopes : Nat
  state        : SessionState
  pendingRPCs  : List QueuedRPC
  deriving Repr, DecidableEq

/-- `AcsServer`'s mutable state: the session map keyed by device id. -/
structure AcsState where
  sessions : List (String × CwmpSession)
  deriving Repr, DecidableEq

/-- The session record `AcsServer.getOrCreateSession` creates: state
`New`, `MaxEnvelopes = 1`, an empty RPC queue, a `session-<unix time>`
id. -/
def freshSession (deviceId : String) (now : Nat) : CwmpSession :=
  { deviceId := deviceId
  , sessionId := "session-" ++ toString now
  , createdTime := now
  , lastActivity := now
  , holdRequests := false
  , maxEnvelopes := 1
  , state := SessionState.new
  , pendingRPCs := [] }

/-- `AcsServer.getOrCreateSession`: return the existing session, or
create a fresh one, insert it into the map, and return it. -/
def getOrCreateSession (acs : AcsState) (deviceId : String) (now : Nat) :
    AcsState × CwmpSession :=
  match mapLookup acs.sessions deviceId with
  | some session => (acs, session)
  | none =>
      ({ sessions := mapInsert acs.sessions deviceId (freshSession deviceId now) },
       freshSession deviceId now)

/-- `AcsServer.SendRPC`: look the device's session up; with no session
the call fails; otherwise the RPC is appended to the session's
`PendingRPCs`. -/
def SendRPC (acs : AcsState) (deviceId : String) (rpc : QueuedRPC) :
    AcsState × Option String :=
  match mapLookup acs.sessions deviceId with
  | none => (acs, some ("no active session for device: " ++ deviceId))
  | some session =>
      ({ sessions := mapInsert acs.sessions deviceId
          { session with pendingRPCs := session.pendingRPCs ++ [rpc] } },
       none)

/-- The device id string `AcsServer.handleInform` builds:
`Manufacturer-OUI-ProductClass-SerialNumber`. -/
def acsDeviceId (d : DeviceIdStruct) : String :=
  d.manufacturer ++ "-" ++ d.oui ++ "-" ++ d.productClass ++ "-" ++ d.serialNumber

/-- The fresh response envelope `AcsServer.processSOAPRequest` builds
before dispatching: all four namespaces set, a header created by
`&SOAPHeader{}` (all fields at their zero values), an empty body. -/
def freshResponseEnvelope : SOAPEnvelope :=
  { soapNS := "http://schemas.xmlsoap.org/soap/envelope/"
  , cwmpNS := "urn:dslforum-org:cwmp-1-2"
  , xsiNS  := "http://www.w3.org/2001/XMLSchema-instance"
  , xsdNS  := "http://www.w3.org/2001/XMLSchema"
  , header := some { id := "", holdRequests := false
                   , noMoreRequests := false, sessionTimeout := 0 }
  , body := SOAPBodyContent.empty }

/-- Set `NoMoreRequests` on a response envelope's header, as the three
handlers do (`response.Header.NoMoreRequests = true`). -/
def setNoMoreRequests (e : SOAPEnvelope) : SOAPEnvelope :=
  { e with header := e.header.map (fun h => { h with noMoreRequests := true }) }

/-- `AcsServer.handleInform`: derive the device id, fetch or create the
session, move it to `SessionStateInform` and stamp `LastActivity`, and
answer with `InformResponse{MaxEnvelopes: 1}` plus `NoMoreRequests`.
The parameter-storage call (`acs.storeDeviceParameters`) is commented
out in the source ("implementation needed"), so no store is touched. -/
def handleInform (acs : AcsState) (inform : Inform)
    (response : SOAPEnvelope) (now : Nat) : AcsState × SOAPEnvelope :=
  let deviceId := acsDeviceId inform.deviceId
  let go := getOrCreateSession acs deviceId now
  let acs₂ : AcsState :=
    { sessions := mapInsert go.1.sessions deviceId
        { go.2 with state := SessionState.inform, lastActivity := now } }
  let response₁ :=
    setNoMoreRequests
      { response with
          body := SOAPBodyContent.informResponse { maxEnvelopes := 1 } }
  (acs₂, response₁)

/-- `AcsServer.processSOAPRequest`: create the fresh response envelope,
then dispatch on the (re-marshalled) body content — `Inform` first, then
`GetParameterValuesResponse`, then `SetParameterValuesResponse`; any
other content falls through to the default branch, which returns the
fresh response unchanged.  An `InformResponse` body contains the bytes
`"Inform"`, so the `strings.Contains` dispatch routes it to
`handleInform`, where `xml.Unmarshal` into `Inform` fails and the error
propagates.  (The byte-level XML codec is outside the embedding; the
parsed body content is an input.) -/
def processSOAPRequest (acs : AcsState) (envelope : SOAPEnvelope)
    (now : Nat) : AcsState × Except String SOAPEnvelope :=
  let response := freshResponseEnvelope
  match envelope.body with
  | SOAPBodyContent.inform i =>
      let hi := handleInform acs i response now
      (hi.1, Except.ok hi.2)
  | SOAPBodyContent.informResponse _ =>
      (acs, Except.error "error parsing Inform message")
  | SOAPBodyContent.getParameterValuesResponse _ =>
      (acs, Except.ok (setNoMoreRequests response))
  | SOAPBodyContent.setParameterValuesResponse _ =>
      (acs, Except.ok (setNoMoreRequests response))
  | _ => (acs, Except.ok response)

/-! ## HTTP layer (`AcsServer.handleCwmpRequest` and `net/http`) -/

/-- `net/http`'s `bodyAllowedForStatus`: responses with status 1xx, 204
or 304 never carry a body; `ResponseWriter.Write` discards the payload
for them. -/
def bodyAllowedForStatus (status : Nat) : Bool :=
  if 100 ≤ status ∧ status ≤ 199 then false
  else if status = 204 then false
  else if status = 304 then false
  else true

/-- A chunk written to the response body: the `xml.Header` preamble, a
marshalled SOAP envelope, the literal empty-envelope string of
`sendEmptyResponse`, or plain text from `http.Error`. -/
inductive RespChunk where
  | xmlHeader : RespChunk
  | envelopeXml (e : SOAPEnvelope) : RespChunk
  | rawEmptyEnvelope : RespChunk
  | text (s : String) : RespChunk
  deriving Repr, DecidableEq

/-- The wire-visible HTTP response: status plus the body chunks that
were actually sent. -/
structure HttpResponse where
  status : Nat
  body   : List RespChunk
  deriving Repr, DecidableEq

/-- `ResponseWriter.Write` after `WriteHeader(status)`: the chunk reaches
the wire only when the status allows a body. -/
def writeBody (resp : HttpResponse) (c : RespChunk) : HttpResponse :=
  if bodyAllowedForStatus resp.status then
    { resp with body := resp.body ++ [c] }
  else resp

/-- The outcome of `io.ReadAll` + `xml.Unmarshal` on the request body:
read failure, empty body, a body that is not a well-formed SOAP
envelope, or a parsed envelope. -/
inductive ReqBody where
  | readError : ReqBody
  | empty : ReqBody
  | malformed : ReqBody
  | envelope (e : SOAPEnvelope) : ReqBody
  deriving Repr, DecidableEq

/-- `AcsServer.sendEmptyResponse`: `WriteHeader(204)` followed by a
write of the literal empty-envelope XML — which `net/http` discards,
since a 204 response allows no body. -/
def sendEmptyResponse : HttpResponse :=
  writeBody { status := 204, body := [] } RespChunk.rawEmptyEnvelope

/-- `AcsServer.sendSOAPFault`: marshal a fault envelope carrying the
CWMP fault code and string, `WriteHeader(500)`, write `xml.Header`, then
the fault XML. -/
def sendSOAPFault (faultCode : Nat) (faultString : String) : HttpResponse :=
  let fault : SOAPEnvelope :=
    { soapNS := "http://schemas.xmlsoap.org/soap/envelope/"
    , cwmpNS := "urn:dslforum-org:cwmp-1-2"
    , xsiNS := ""
    , xsdNS := ""
    , header := none
    , body := SOAPBodyContent.fault
        { faultCode := "Client"
        , faultString := faultString
        , detail := some { faultCode := faultCode, faultString := faultString } } }
  writeBody (writeBody { status := 500, body := [] } RespChunk.xmlHeader)
    (RespChunk.envelopeXml fault)

/-- `AcsServer.handleCwmpRequest`: read the body; a read failure answers
`http.Error(w, "Bad Request", 400)`; an empty body answers
`sendEmptyResponse`; an unparseable body answers a 9003 SOAP fault; a
parsed envelope goes through `processSOAPRequest`, whose error answers a
9002 fault and whose response envelope is written with status 200. -/
def handleCwmpRequest (acs : AcsState) (req : ReqBody) (now : Nat) :
    AcsState × HttpResponse :=
  match req with
  | ReqBody.readError =>
      (acs, writeBody { status := 400, body := [] } (RespChunk.text "Bad Request"))
  | ReqBody.empty => (acs, sendEmptyResponse)
  | ReqBody.malformed =>
      (acs, sendSOAPFault FaultInvalidArguments "Invalid SOAP envelope")
  | ReqBody.envelope e =>
      let pr := processSOAPRequest acs e now
      match pr.2 with
      | Except.error msg => (pr.1, sendSOAPFault FaultInternalError msg)
      | Except.ok response =>
          (pr.1,
           writeBody (writeBody { status := 200, body := [] } RespChunk.xmlHeader)
             (RespChunk.envelopeXml response))

/-! ## Controller CWMP manager (`internal/controller/cwmp.go`) -/

/-- `cntlr.CwmpDevice`: the controller's in-memory record of a TR-069
device. -/
structure CwmpDevice where
  deviceId             : String
  manufacturer         : String
  oui                  : String
  productClass         : String
  serialNumber         : String
  softwareVersion      : String
  hardwareVersion      : String
  lastInformTime       : Nat
  connectionRequestURL : String
  parameterKey         : String
  isOnline             : Bool
  parameters           : List (String × ParameterValueStruct)
  deriving Repr, DecidableEq

/-- The canonical device id `CwmpManager.RegisterCwmpDevice` builds:
`cwmp:Manufacturer:OUI:ProductClass:SerialNumber`. -/
def mkCwmpDeviceId (d : DeviceIdStruct) : String :=
  "cwmp:" ++ d.manufacturer ++ ":" ++ d.oui ++ ":" ++ d.productClass
    ++ ":" ++ d.serialNumber

/-- The body of `RegisterCwmpDevice`'s parameter loop: store the
parameter in the `Parameters` map, and mirror the four well-known paths
into their descriptor fields. -/
def registerStep (dev : CwmpDevice) (param : ParameterValueStruct) :
    CwmpDevice :=
  let dev := { dev with parameters := mapInsert dev.parameters param.name param }
  if param.name = "Device.DeviceInfo.SoftwareVersion" then
    { dev with softwareVersion := param.value }
  else if param.name = "Device.DeviceInfo.HardwareVersion" then
    { dev with hardwareVersion := param.value }
  else if param.name = "Device.ManagementServer.ConnectionRequestURL" then
    { dev with connectionRequestURL := param.value }
  else if param.name = "Device.ManagementServer.ParameterKey" then
    { dev with parameterKey := param.value }
  else dev

/-- The device record `RegisterCwmpDevice` constructs: identity fields
from the Inform's `DeviceIdStruct`, `IsOnline = true`, `LastInformTime =
now`, then one `registerStep` pass over the parameter list. -/
def registerBuildDevice (deviceInfo : DeviceIdStruct)
    (parameterList : List ParameterValueStruct) (now : Nat) : CwmpDevice :=
  let init : CwmpDevice :=
    { deviceId := mkCwmpDeviceId deviceInfo
    , manufacturer := deviceInfo.manufacturer
    , oui := deviceInfo.oui
    , productClass := deviceInfo.productClass
    , serialNumber := deviceInfo.serialNumber
    , softwareVersion := ""
    , hardwareVersion := ""
    , lastInformTime := now
    , connectionRequestURL := ""
    , parameterKey := ""
    , isOnline := true
    , parameters := [] }
  parameterList.foldl registerStep init

/-- The state a `CwmpManager` closes over: its in-memory device map, the
`cwmpdevices` collection behind `storeDeviceInDB`, and the embedded
`AcsServer`. -/
structure CwmpManagerState where
  devices   : List (String × CwmpDevice)
  dbDevices : List DbCwmpDevice
  acs       : AcsState
  deriving Repr, DecidableEq

/-- `CwmpManager.storeDeviceInDB`: convert the in-memory record into a
`db.CwmpDevice` and `InsertOne` it into `cwmpdevices`.  `ID` maps to
Mongo's `_id`, so inserting a second document with an id already present
fails with a duplicate-key error and writes nothing. -/
def storeDeviceInDB (dbDevices : List DbCwmpDevice) (device : CwmpDevice)
    (now : Nat) : List DbCwmpDevice × Option String :=
  let dbDevice : DbCwmpDevice :=
    { id := device.deviceId
    , oui := device.oui
    , productClass := device.productClass
    , serialNumber := device.serialNumber
    , manufacturer := device.manufacturer
    , hardwareVersion := device.hardwareVersion
    , softwareVersion := device.softwareVersion
    , connectionRequestURL := device.connectionRequestURL
    , lastInform := device.lastInformTime
    , ipAddress := ""
    , parameters := device.parameters.map (fun kv => (kv.1, kv.2.value))
    , createdAt := now
    , updatedAt := now }
  if dbDevices.any (fun d => d.id = device.deviceId) then
    (dbDevices, some "E11000 duplicate key error")
  else (dbDevices ++ [dbDevice], none)

/-- `CwmpManager.RegisterCwmpDevice`: build the canonical id and the
device record, write it into the in-memory map unconditionally
(`cm.devices[deviceId] = device`), then attempt the database insert and
return its outcome.  There is no conflict check before the map write. -/
def RegisterCwmpDevice (st : CwmpManagerState) (deviceInfo : DeviceIdStruct)
    (parameterList : List ParameterValueStruct) (now : Nat) :
    CwmpManagerState × Option String :=
  let deviceId := mkCwmpDeviceId deviceInfo
  let device := registerBuildDevice deviceInfo parameterList now
  let st₁ := { st with devices := mapInsert st.devices deviceId device }
  let ins := storeDeviceInDB st₁.dbDevices device now
  ({ st₁ with dbDevices := ins.1 }, ins.2)

/-- `CwmpManager.GetCwmpDevice`: map lookup, `device not found` error
when absent. -/
def GetCwmpDevice (st : CwmpManagerState) (deviceId : String) :
    Except String CwmpDevice :=
  match mapLookup st.devices deviceId with
  | some device => Except.ok device
  | none => Except.error ("device not found: " ++ deviceId)

/-- `CwmpManager.GetParameterValues`: resolve the device (error if
unknown), refuse offline devices, then delegate to
`AcsServer.GetParameterValues`, which queues a `GetParameterValues` RPC
through `SendRPC`. -/
def mgrGetParameterValues (st : CwmpManagerState) (deviceId : String)
    (parameterNames : List String) : CwmpManagerState × Option String :=
  match GetCwmpDevice st deviceId with
  | Except.error e => (st, some e)
  | Except.ok device =>
      if ¬device.isOnline then (st, some ("device is offline: " ++ deviceId))
      else
        let sr := SendRPC st.acs deviceId
          (QueuedRPC.getParameterValues parameterNames)
        ({ st with acs := sr.1 }, sr.2)

/-- `CwmpManager.SetParameterValues`: same gatekeeping as
`GetParameterValues`, delegating to `AcsServer.SetParameterValues`. -/
def mgrSetParameterValues (st : CwmpManagerState) (deviceId : String)
    (parameters : List ParameterValueStruct) (parameterKey : String) :
    CwmpManagerState × Option String :=
  match GetCwmpDevice st deviceId with
  | Except.error e => (st, some e)
  | Except.ok device =>
      if ¬device.isOnline then (st, some ("device is offline: " ++ deviceId))
      else
        let sr := SendRPC st.acs deviceId
          (QueuedRPC.setParameterValues parameters parameterKey)
        ({ st with acs := sr.1 }, sr.2)

/-- `CwmpManager.RebootCwmpDevice`: same gatekeeping, delegating to
`AcsServer.RebootDevice`. -/
def mgrRebootCwmpDevice (st : CwmpManagerState) (deviceId : String)
    (commandKey : String) : CwmpManagerState × Option String :=
  match GetCwmpDevice st deviceId with
  | Except.error e => (st, some e)
  | Except.ok device =>
      if ¬device.isOnline then (st, some ("device is offline: " ++ deviceId))
      else
        let sr := SendRPC st.acs deviceId (QueuedRPC.reboot commandKey)
        ({ st with acs := sr.1 }, sr.2)

/-! ## REST parameter handler (`pkg/apiserver`, `ApiServer.getCwmpParams`) -/

/-- The `found` map `getCwmpParams` builds over the records returned by
`GetCwmpParametersByPath`. -/
def foundIn (dbParams : List CwmpParameter) (name : String) : Bool :=
  dbParams.any (fun p => p.path = name)

/-- The explicit-name branch of `ApiServer.getCwmpParams`
(`len(parameterNames) > 0`): fetch the records matching the requested
paths, convert them to `ParameterValueStruct`, then walk the requested
names and append `{Name: name, Value: "", Type: "string"}` for every
name no returned record covers. -/
def getCwmpParamsExplicit (store : List CwmpParameter) (deviceId : String)
    (parameterNames : List String) : List ParameterValueStruct :=
  let dbParams := GetCwmpParametersByPath store deviceId parameterNames
  let parameters :=
    dbParams.map (fun p =>
      { name := p.path, value := p.value, type := p.type
        : ParameterValueStruct })
  parameters ++
    (parameterNames.filter (fun n => ¬foundIn dbParams n)).map
      (fun n => { name := n, value := "", type := "string" })

/-! ## Helper lemmas -/

theorem mapLookup_mapInsert_self {α : Type} (m : List (String × α))
    (k : String) (v : α) : mapLookup (mapInsert m k v) k = some v := by
  induction m with
  | nil => simp [mapInsert, mapLookup]
  | cons hd tl ih =>
      by_cases h : hd.1 = k
      · simp [mapInsert, mapLookup, h]
      · simp [mapInsert, mapLookup, h, ih]

theorem mapLookup_mapInsert_ne {α : Type} (m : List (String × α))
    (k k' : String) (v : α) (h : k ≠ k') :
    mapLookup (mapInsert m k v) k' = mapLookup m k' := by
  induction m with
  | nil => simp [mapInsert, mapLookup, h]
  | cons hd tl ih =>
      by_cases hh : hd.1 = k
      · simp [mapInsert, mapLookup, hh, h]
      · simp [mapInsert, mapLookup, hh, ih]

theorem upsertCwmpParameter_keys (store : List CwmpParameter)
    (p : CwmpParameter) :
    (upsertCwmpParameter store p).map CwmpParameter.key =
      if p.key ∈ store.map CwmpParameter.key then
        store.map CwmpParameter.key
      else store.map CwmpParameter.key ++ [p.key] := by
  induction store with
  | nil => simp [upsertCwmpParameter]
  | cons q rest ih =>
      by_cases h : q.deviceID = p.deviceID ∧ q.path = p.path
      · have hk : q.key = p.key := by
          simp [CwmpParameter.key, h.1, h.2]
        simp [upsertCwmpParameter, h, hk, CwmpParameter.key]
      · have hk : q.key ≠ p.key := by
          simp only [CwmpParameter.key, Prod.mk.injEq, ne_eq, not_and]
          intro h1 h2
          exact h ⟨h1, h2⟩
        by_cases hmem : p.key ∈ rest.map CwmpParameter.key
        · simp [upsertCwmpParameter, h, ih, hmem, hk, Ne.symm hk]
        · simp [upsertCwmpParameter, h, ih, hmem, hk, Ne.symm hk]

theorem upsertCwmpParameter_nodup (store : List CwmpParameter)
    (p : CwmpParameter) (h : paramKeysUnique store) :
    paramKeysUnique (upsertCwmpParameter store p) := by
  unfold paramKeysUnique at *
  rw [upsertCwmpParameter_keys]
  by_cases hmem : p.key ∈ store.map CwmpParameter.key
  · simpa [hmem] using h
  · simp only [hmem, if_false]
    rw [List.nodup_append]
    exact ⟨h, List.nodup_singleton _, by simpa using hmem⟩

theorem upsertCwmpParameter_key_mem (store : List CwmpParameter)
    (p : CwmpParameter) :
    p.key ∈ (upsertCwmpParameter store p).map CwmpParameter.key := by
  rw [upsertCwmpParameter_keys]
  by_cases hmem : p.key ∈ store.map CwmpParameter.key <;> simp [hmem]

theorem upsertCwmpParameter_key_mono (store : List CwmpParameter)
    (p : CwmpParameter) (k : String × String)
    (h : k ∈ store.map CwmpParameter.key) :
    k ∈ (upsertCwmpParameter store p).map CwmpParameter.key := by
  rw [upsertCwmpParameter_keys]
  by_cases hmem : p.key ∈ store.map CwmpParameter.key <;> simp [hmem, h]

theorem upsertCwmpParameter_length_of_mem (store : List CwmpParameter)
    (p : CwmpParameter) (h : p.key ∈ store.map CwmpParameter.key) :
    (upsertCwmpParameter store p).length = store.length := by
  have := upsertCwmpParameter_keys store p
  simp only [h, if_true] at this
  have h1 : ((upsertCwmpParameter store p).map CwmpParameter.key).length
      = (store.map CwmpParameter.key).length := by rw [this]
  simpa using h1

theorem upsertCwmpParameter_find (store : List CwmpParameter)
    (p : CwmpParameter) :
    (upsertCwmpParameter store p).find?
      (fun q => decide (q.deviceID = p.deviceID ∧ q.path = p.path)) = some p := by
  induction store with
  | nil => simp [upsertCwmpParameter]
  | cons q rest ih =>
      by_cases h : q.deviceID = p.deviceID ∧ q.path = p.path
      · simp [upsertCwmpParameter, h]
      · rw [upsertCwmpParameter]
        simp only [h, if_false]
        rw [List.find?]
        simp only [h, decide_False, decide_eq_false h]
        exact ih

theorem foldl_upsert_nodup (ps : List CwmpParameter)
    (store : List CwmpParameter) (h : paramKeysUnique store) :
    paramKeysUnique (ps.foldl upsertCwmpParameter store) := by
  induction ps generalizing store with
  | nil => simpa using h
  | cons p rest ih =>
      simpa using ih (upsertCwmpParameter store p)
        (upsertCwmpParameter_nodup store p h)

theorem foldl_upsert_key_mono (ps : List CwmpParameter)
    (store : List CwmpParameter) (k : String × String)
    (h : k ∈ store.map CwmpParameter.key) :
    k ∈ (ps.foldl upsertCwmpParameter store).map CwmpParameter.key := by
  induction ps generalizing store with
  | nil => simpa using h
  | cons p rest ih =>
      simpa using ih (upsertCwmpParameter store p)
        (upsertCwmpParameter_key_mono store p k h)

theorem foldl_upsert_key_mem (ps : List CwmpParameter)
    (store : List CwmpParameter) (p : CwmpParameter) (h : p ∈ ps) :
    p.key ∈ (ps.foldl upsertCwmpParameter store).map CwmpParameter.key := by
  induction ps generalizing store with
  | nil => simp at h
  | cons q rest ih =>
      rcases List.mem_cons.mp h with h1 | h2
      · subst h1
        simpa using foldl_upsert_key_mono rest (upsertCwmpParameter store p)
          p.key (upsertCwmpParameter_key_mem store p)
      · simpa using ih (upsertCwmpParameter store q) h2

theorem UpsertCwmpParameters_store_eq (ops : List WriteOp)
    (store : List CwmpParameter) :
    (UpsertCwmpParameters store ops).1 =
      ((ops.takeWhile (fun op => !op.2)).map Prod.fst).foldl
        upsertCwmpParameter store := by
  induction ops generalizing store with
  | nil => simp [UpsertCwmpParameters]
  | cons op rest ih =>
      rcases op with ⟨p, fails⟩
      cases fails with
      | true => simp [UpsertCwmpParameters, List.takeWhile]
      | false => simpa [UpsertCwmpParameters, List.takeWhile]
          using ih (upsertCwmpParameter store p)

theorem UpsertCwmpParameters_err_none_iff (ops : List WriteOp)
    (store : List CwmpParameter) :
    (UpsertCwmpParameters store ops).2 = none ↔ ∀ op ∈ ops, op.2 = false := by
  induction ops generalizing store with
  | nil => simp [UpsertCwmpParameters]
  | cons op rest ih =>
      rcases op with ⟨p, fails⟩
      cases fails with
      | true => simp [UpsertCwmpParameters]
      | false => simpa [UpsertCwmpParameters]
          using ih (upsertCwmpParameter store p)

theorem updateDeviceParametersInDB_store_eq (deviceId : String) (now : Nat)
    (ops : List (ParameterValueStruct × Bool)) (store : List CwmpParameter) :
    (updateDeviceParametersInDB deviceId now store ops).1 =
      ((ops.takeWhile (fun op => !op.2)).map
        (fun op => mkControllerParam deviceId now op.1)).foldl
          upsertCwmpParameter store := by
  induction ops generalizing store with
  | nil => simp [updateDeviceParametersInDB]
  | cons op rest ih =>
      rcases op with ⟨p, fails⟩
      cases fails with
      | true => simp [updateDeviceParametersInDB, List.takeWhile]
      | false => simpa [updateDeviceParametersInDB, List.takeWhile]
          using ih (upsertCwmpParameter store (mkControllerParam deviceId now p))

theorem getOrCreateSession_of_some (acs : AcsState) (deviceId : String)
    (now : Nat) (sess : CwmpSession)
    (h : mapLookup acs.sessions deviceId = some sess) :
    getOrCreateSession acs deviceId now = (acs, sess) := by
  simp [getOrCreateSession, h]

theorem getOrCreateSession_of_none (acs : AcsState) (deviceId : String)
    (now : Nat) (h : mapLookup acs.sessions deviceId = none) :
    getOrCreateSession acs deviceId now =
      ({ sessions := mapInsert acs.sessions deviceId (freshSession deviceId now) },
       freshSession deviceId now) := by
  simp [getOrCreateSession, h]

theorem handleInform_queue_preserved (acs : AcsState) (i : Inform)
    (response : SOAPEnvelope) (now : Nat) (dev : String) (s : CwmpSession)
    (h : mapLookup acs.sessions dev = some s) :
    (mapLookup (handleInform acs i response now).1.sessions dev).map
      CwmpSession.pendingRPCs = some s.pendingRPCs := by
  by_cases hdev : acsDeviceId i.deviceId = dev
  · subst hdev
    rw [handleInform, getOrCreateSession_of_some acs _ now s h]
    simp [mapLookup_mapInsert_self]
  · rcases hq : mapLookup acs.sessions (acsDeviceId i.deviceId) with _ | sess
    · rw [handleInform, getOrCreateSession_of_none acs _ now hq]
      simp [mapLookup_mapInsert_ne _ _ _ _ hdev, h]
    · rw [handleInform, getOrCreateSession_of_some acs _ now sess hq]
      simp [mapLookup_mapInsert_ne _ _ _ _ hdev, h]

theorem processSOAPRequest_queue_preserved (acs : AcsState)
    (envelope : SOAPEnvelope) (now : Nat) (dev : String) (s : CwmpSession)
    (h : mapLookup acs.sessions dev = some s) :
    (mapLookup (processSOAPRequest acs envelope now).1.sessions dev).map
      CwmpSession.pendingRPCs = some s.pendingRPCs := by
  cases hb : envelope.body with
  | inform i =>
      simpa [processSOAPRequest, hb]
        using handleInform_queue_preserved acs i freshResponseEnvelope now dev s h
  | empty => simp [processSOAPRequest, hb, h]
  | informResponse r => simp [processSOAPRequest, hb, h]
  | getParameterValuesResponse r => simp [processSOAPRequest, hb, h]
  | setParameterValuesResponse r => simp [processSOAPRequest, hb, h]
  | fault f => simp [processSOAPRequest, hb, h]

theorem handleCwmpRequest_queue_preserved (acs : AcsState) (req : ReqBody)
    (now : Nat) (dev : String) (s : CwmpSession)
    (h : mapLookup acs.sessions dev = some s) :
    (mapLookup (handleCwmpRequest acs req now).1.sessions dev).map
      CwmpSession.pendingRPCs = some s.pendingRPCs := by
  cases req with
  | readError => simp [handleCwmpRequest, h]
  | empty => simp [handleCwmpRequest, h]
  | malformed => simp [handleCwmpRequest, h]
  | envelope e =>
      have := processSOAPRequest_queue_preserved acs e now dev s h
      rw [handleCwmpRequest]
      rcases hpr : (processSOAPRequest acs e now).2 with msg | response
      · simpa [hpr] using this
      · simpa [hpr] using this

theorem registerStep_deviceId (dev : CwmpDevice)
    (param : ParameterValueStruct) :
    (registerStep dev param).deviceId = dev.deviceId := by
  unfold registerStep
  by_cases h1 : param.name = "Device.DeviceInfo.SoftwareVersion" <;>
    by_cases h2 : param.name = "Device.DeviceInfo.HardwareVersion" <;>
      by_cases h3 : param.name = "Device.ManagementServer.ConnectionRequestURL" <;>
        by_cases h4 : param.name = "Device.ManagementServer.ParameterKey" <;>
          simp [h1, h2, h3, h4]

theorem foldl_registerStep_deviceId (l : List ParameterValueStruct)
    (dev : CwmpDevice) :
    (l.foldl registerStep dev).deviceId = dev.deviceId := by
  induction l generalizing dev with
  | nil => rfl
  | cons param rest ih =>
      rw [List.foldl_cons, ih, registerStep_deviceId]

theorem registerBuildDevice_deviceId (deviceInfo : DeviceIdStruct)
    (parameterList : List ParameterValueStruct) (now : Nat) :
    (registerBuildDevice deviceInfo parameterList now).deviceId
      = mkCwmpDeviceId deviceInfo := by
  unfold registerBuildDevice
  rw [foldl_registerStep_deviceId]

/-! ## Claim theorems -/

/-- C3: the CWMP fault-code space used by the engine is exactly the
twenty codes 9000 through 9019 of the TR-069 registry, in registry
order, with each named constant bound to its registry value. -/
theorem c3_fault_code_space :
    cwmpFaultCodes = (List.range 20).map (fun i => 9000 + i) ∧
    FaultMethodNotSupported = 9000 ∧
    FaultRequestDenied = 9001 ∧
    FaultInternalError = 9002 ∧
    FaultInvalidArguments = 9003 ∧
    FaultResourcesExceeded = 9004 ∧
    FaultInvalidParameterName = 9005 ∧
    FaultInvalidParameterType = 9006 ∧
    FaultInvalidParameterValue = 9007 ∧
    FaultAttemptToSetNonWritableParameter = 9008 ∧
    FaultNotificationRequestRejected = 9009 ∧
    FaultDownloadFailure = 9010 ∧
    FaultUploadFailure = 9011 ∧
    FaultFileTransferServerAuthenticationFailure = 9012 ∧
    FaultUnsupportedProtocolForFileTransfer = 9013 ∧
    FaultFileTransferFailure = 9014 ∧
    FaultFileTransferFailureContactServer = 9015 ∧
    FaultFileTransferFailureAccessFile = 9016 ∧
    FaultFileTransferFailureCompleteDownload = 9017 ∧
    FaultFileTransferFailureFileCorrupted = 9018 ∧
    FaultFileTransferFailureFileAuthentication = 9019 := by
  decide

/-- C6: starting from a store in which no two parameter records share a
`(device_id, path)` key, every write path — a single keyed upsert, the
bulk `UpsertCwmpParameters`, and the controller's
`updateDeviceParametersInDB` loop — preserves that uniqueness; and an
upsert whose key is already present replaces the existing record (the
store keeps its length and the key now holds the new record) rather than
adding a second one. -/
theorem c6_at_most_one_parameter_per_key (store : List CwmpParameter)
    (h : paramKeysUnique store) :
    (∀ p, paramKeysUnique (upsertCwmpParameter store p)) ∧
    (∀ ops : List WriteOp,
      paramKeysUnique (UpsertCwmpParameters store ops).1) ∧
    (∀ (deviceId : String) (now : Nat)
       (ops : List (ParameterValueStruct × Bool)),
      paramKeysUnique (updateDeviceParametersInDB deviceId now store ops).1) ∧
    (∀ p, p.key ∈ store.map CwmpParameter.key →
      (upsertCwmpParameter store p).length = store.length ∧
      (upsertCwmpParameter store p).find?
        (fun q => decide (q.deviceID = p.deviceID ∧ q.path = p.path)) = some p) := by
  refine ⟨fun p => upsertCwmpParameter_nodup store p h, fun ops => ?_,
    fun deviceId now ops => ?_, fun p hp => ?_⟩
  · rw [UpsertCwmpParameters_store_eq]
    exact foldl_upsert_nodup _ store h
  · rw [updateDeviceParametersInDB_store_eq]
    exact foldl_upsert_nodup _ store h
  · exact ⟨upsertCwmpParameter_length_of_mem store p hp,
      upsertCwmpParameter_find store p⟩

/-- Witness for C6 at a concrete one-record store. -/
theorem c6_at_most_one_parameter_per_key_witness :
    paramKeysUnique
      (upsertCwmpParameter
        [{ id := "d_a", deviceID := "d", path := "a", value := "1"
         , type := "string", writable := true, lastUpdate := 0 }]
        { id := "d_a", deviceID := "d", path := "a", value := "2"
        , type := "string", writable := true, lastUpdate := 1 }) :=
  (c6_at_most_one_parameter_per_key
    [{ id := "d_a", deviceID := "d", path := "a", value := "1"
     , type := "string", writable := true, lastUpdate := 0 }]
    (by simp [paramKeysUnique])).1
    { id := "d_a", deviceID := "d", path := "a", value := "2"
    , type := "string", writable := true, lastUpdate := 1 }

/-- C7 counterexample: a two-parameter bulk upsert whose second write
fails returns an error, yet the first parameter has been written — the
call is not all-or-nothing. -/
theorem c7_counterexample :
    (UpsertCwmpParameters []
      [({ id := "d_a", deviceID := "d", path := "a", value := "1"
        , type := "string", writable := true, lastUpdate := 0 }, false),
       ({ id := "d_b", deviceID := "d", path := "b", value := "2"
        , type := "string", writable := true, lastUpdate := 0 }, true)]).2.isSome
    ∧ (UpsertCwmpParameters []
      [({ id := "d_a", deviceID := "d", path := "a", value := "1"
        , type := "string", writable := true, lastUpdate := 0 }, false),
       ({ id := "d_b", deviceID := "d", path := "b", value := "2"
        , type := "string", writable := true, lastUpdate := 0 }, true)]).1
      = [{ id := "d_a", deviceID := "d", path := "a", value := "1"
         , type := "string", writable := true, lastUpdate := 0 }] := by
  decide

/-- C7 amended: `UpsertCwmpParameters` is sequential, not atomic — the
call succeeds exactly when no individual write fails; the resulting
store is the fold of the writes that precede the first failure (so on
error the earlier writes remain in place); and on success every listed
parameter's key is present in the resulting store. -/
theorem c7_sequential_write_semantics (store : List CwmpParameter)
    (ops : List WriteOp) :
    ((UpsertCwmpParameters store ops).2 = none ↔ ∀ op ∈ ops, op.2 = false) ∧
    (UpsertCwmpParameters store ops).1 =
      ((ops.takeWhile (fun op => !op.2)).map Prod.fst).foldl
        upsertCwmpParameter store ∧
    ((UpsertCwmpParameters store ops).2 = none →
      ∀ op ∈ ops, op.1.key ∈
        (UpsertCwmpParameters store ops).1.map CwmpParameter.key) := by
  refine ⟨UpsertCwmpParameters_err_none_iff ops store,
    UpsertCwmpParameters_store_eq ops store, fun hnone op hop => ?_⟩
  have hall : ∀ o ∈ ops, o.2 = false :=
    (UpsertCwmpParameters_err_none_iff ops store).mp hnone
  have htake : ops.takeWhile (fun op => !op.2) = ops :=
    List.takeWhile_eq_self_iff.mpr (fun o ho => by simp [hall o ho])
  rw [UpsertCwmpParameters_store_eq, htake]
  exact foldl_upsert_key_mem _ store op.1 (List.mem_map_of_mem Prod.fst hop)

/-- Witness for C7's amended statement at a concrete succeeding call. -/
theorem c7_sequential_write_semantics_witness :
    ({ id := "d_a", deviceID := "d", path := "a", value := "1"
     , type := "string", writable := true, lastUpdate := 0 }
       : CwmpParameter).key ∈
      (UpsertCwmpParameters []
        [({ id := "d_a", deviceID := "d", path := "a", value := "1"
          , type := "string", writable := true, lastUpdate := 0 }, false)]).1.map
        CwmpParameter.key :=
  (c7_sequential_write_semantics []
    [({ id := "d_a", deviceID := "d", path := "a", value := "1"
      , type := "string", writable := true, lastUpdate := 0 }, false)]).2.2
    (by decide)
    ({ id := "d_a", deviceID := "d", path := "a", value := "1"
     , type := "string", writable := true, lastUpdate := 0 }, false)
    (by decide)

/-- C9: for a device id not present in the registry, the operator
requests GetParameterValues, SetParameterValues and Reboot each return
the `device not found` error with the manager state — including the
embedded ACS engine and its session queues — completely unchanged: the
transport layer is never reached. -/
theorem c9_unknown_device_fails_without_transport (st : CwmpManagerState)
    (deviceId : String) (h : mapLookup st.devices deviceId = none)
    (parameterNames : List String) (parameters : List ParameterValueStruct)
    (parameterKey commandKey : String) :
    mgrGetParameterValues st deviceId parameterNames =
      (st, some ("device not found: " ++ deviceId)) ∧
    mgrSetParameterValues st deviceId parameters parameterKey =
      (st, some ("device not found: " ++ deviceId)) ∧
    mgrRebootCwmpDevice st deviceId commandKey =
      (st, some ("device not found: " ++ deviceId)) := by
  refine ⟨?_, ?_, ?_⟩ <;>
    simp [mgrGetParameterValues, mgrSetParameterValues, mgrRebootCwmpDevice,
      GetCwmpDevice, h]

/-- Witness for C9 on the empty registry. -/
theorem c9_unknown_device_fails_without_transport_witness :
    mgrGetParameterValues
        { devices := [], dbDevices := [], acs := { sessions := [] } }
        "cwmp:Acme:001122:Router:SN1" ["Device.DeviceInfo.SoftwareVersion"] =
      ({ devices := [], dbDevices := [], acs := { sessions := [] } },
       some ("device not found: " ++ "cwmp:Acme:001122:Router:SN1")) :=
  (c9_unknown_device_fails_without_transport
    { devices := [], dbDevices := [], acs := { sessions := [] } }
    "cwmp:Acme:001122:Router:SN1" (by decide)
    ["Device.DeviceInfo.SoftwareVersion"] [] "" "").1

/-- C10: when the REST parameters endpoint is called with an explicit
list of names, every requested name appears in the returned list: a name
no stored record covers is backfilled with Value `""` and Type
`"string"`, and every stored record matching the device and a requested
path contributes its stored value and type — no requested name is
silently omitted. -/
theorem c10_requested_names_never_omitted (store : List CwmpParameter)
    (deviceId : String) (parameterNames : List String) :
    (∀ name ∈ parameterNames,
      ∃ e ∈ getCwmpParamsExplicit store deviceId parameterNames,
        e.name = name) ∧
    (∀ name ∈ parameterNames,
      foundIn (GetCwmpParametersByPath store deviceId parameterNames) name
          = false →
      ({ name := name, value := "", type := "string" } : ParameterValueStruct)
        ∈ getCwmpParamsExplicit store deviceId parameterNames) ∧
    (∀ p ∈ store, p.deviceID = deviceId → p.path ∈ parameterNames →
      ({ name := p.path, value := p.value, type := p.type }
          : ParameterValueStruct)
        ∈ getCwmpParamsExplicit store deviceId parameterNames) := by
  have hback : ∀ name ∈ parameterNames,
      foundIn (GetCwmpParametersByPath store deviceId parameterNames) name
          = false →
      ({ name := name, value := "", type := "string" } : ParameterValueStruct)
        ∈ getCwmpParamsExplicit store deviceId parameterNames := by
    intro name hn hf
    unfold getCwmpParamsExplicit
    refine List.mem_append_right _ ?_
    refine List.mem_map.mpr ⟨name, ?_, rfl⟩
    exact List.mem_filter.mpr ⟨hn, by simp [hf]⟩
  have hstore : ∀ p ∈ store, p.deviceID = deviceId →
      p.path ∈ parameterNames →
      ({ name := p.path, value := p.value, type := p.type }
          : ParameterValueStruct)
        ∈ getCwmpParamsExplicit store deviceId parameterNames := by
    intro p hp hdev hpath
    unfold getCwmpParamsExplicit
    refine List.mem_append_left _ ?_
    refine List.mem_map.mpr ⟨p, ?_, rfl⟩
    unfold GetCwmpParametersByPath
    exact List.mem_filter.mpr ⟨hp, by simp [hdev, hpath]⟩
  refine ⟨fun name hn => ?_, hback, hstore⟩
  by_cases hf : foundIn (GetCwmpParametersByPath store deviceId parameterNames)
      name
  · obtain ⟨q, hq, hqname⟩ := List.any_eq_true.mp hf
    have hqname' : q.path = name := by simpa using hqname
    refine ⟨{ name := q.path, value := q.value, type := q.type }, ?_, hqname'⟩
    unfold getCwmpParamsExplicit
    exact List.mem_append_left _ (List.mem_map.mpr ⟨q, hq, rfl⟩)
  · exact ⟨{ name := name, value := "", type := "string" },
      hback name hn (by simpa using hf), rfl⟩

/-- Witness for C10: one stored and one missing requested name. -/
theorem c10_requested_names_never_omitted_witness :
    ∃ e ∈ getCwmpParamsExplicit
        [{ id := "d_a", deviceID := "d", path := "a", value := "1"
         , type := "int", writable := true, lastUpdate := 0 }]
        "d" ["a", "b"],
      e.name = "b" :=
  (c10_requested_names_never_omitted
    [{ id := "d_a", deviceID := "d", path := "a", value := "1"
     , type := "int", writable := true, lastUpdate := 0 }]
    "d" ["a", "b"]).1 "b" (by decide)

/-- C1 counterexample: registering the identity
`(Acme, 001122, Router, SN1)` twice with divergent software versions.
The second call does return an error, but the registry's Device entry is
overwritten with the second descriptor — the first registered Device
does not remain unchanged. -/
theorem c1_counterexample :
    (RegisterCwmpDevice
      (RegisterCwmpDevice
        { devices := [], dbDevices := [], acs := { sessions := [] } }
        { manufacturer := "Acme", oui := "001122", productClass := "Router"
        , serialNumber := "SN1" }
        [{ name := "Device.DeviceInfo.SoftwareVersion", value := "1.0"
         , type := "string" }] 0).1
      { manufacturer := "Acme", oui := "001122", productClass := "Router"
      , serialNumber := "SN1" }
      [{ name := "Device.DeviceInfo.SoftwareVersion", value := "2.0"
       , type := "string" }] 1).2.isSome
    ∧ (mapLookup
        (RegisterCwmpDevice
          (RegisterCwmpDevice
            { devices := [], dbDevices := [], acs := { sessions := [] } }
            { manufacturer := "Acme", oui := "001122"
            , productClass := "Router", serialNumber := "SN1" }
            [{ name := "Device.DeviceInfo.SoftwareVersion", value := "1.0"
             , type := "string" }] 0).1
          { manufacturer := "Acme", oui := "001122", productClass := "Router"
          , serialNumber := "SN1" }
          [{ name := "Device.DeviceInfo.SoftwareVersion", value := "2.0"
           , type := "string" }] 1).1.devices
        "cwmp:Acme:001122:Router:SN1").map CwmpDevice.softwareVersion
      = some "2.0"
    ∧ (mapLookup
        (RegisterCwmpDevice
          { devices := [], dbDevices := [], acs := { sessions := [] } }
          { manufacturer := "Acme", oui := "001122", productClass := "Router"
          , serialNumber := "SN1" }
          [{ name := "Device.DeviceInfo.SoftwareVersion", value := "1.0"
           , type := "string" }] 0).1.devices
        "cwmp:Acme:001122:Router:SN1").map CwmpDevice.softwareVersion
      = some "1.0" := by
  decide

/-- C1 amended: when the canonical id of the registered identity is
already present in the device collection, a second `RegisterCwmpDevice`
call returns the database duplicate-key error (there is no
`IdentityConflict` kind in the code), the database copy is left intact —
but the in-memory registry entry has already been overwritten with the
device built from the second call's descriptor, so the first Device
entity does not remain unchanged. -/
theorem c1_second_registration_overwrites (st : CwmpManagerState)
    (deviceInfo : DeviceIdStruct)
    (parameterList : List ParameterValueStruct) (now : Nat)
    (h : ∃ d ∈ st.dbDevices, d.id = mkCwmpDeviceId deviceInfo) :
    (RegisterCwmpDevice st deviceInfo parameterList now).2 =
      some "E11000 duplicate key error" ∧
    mapLookup (RegisterCwmpDevice st deviceInfo parameterList now).1.devices
        (mkCwmpDeviceId deviceInfo)
      = some (registerBuildDevice deviceInfo parameterList now) ∧
    (RegisterCwmpDevice st deviceInfo parameterList now).1.dbDevices
      = st.dbDevices := by
  obtain ⟨d, hd, hid⟩ := h
  have hex : ∃ x ∈ st.dbDevices, x.id = mkCwmpDeviceId deviceInfo :=
    ⟨d, hd, hid⟩
  refine ⟨?_, ?_, ?_⟩ <;>
    simp [RegisterCwmpDevice, storeDeviceInDB, mapLookup_mapInsert_self,
      registerBuildDevice_deviceId, hex]

/-- Witness for C1's amended statement: one device already stored. -/
theorem c1_second_registration_overwrites_witness :
    (RegisterCwmpDevice
      { devices := []
      , dbDevices :=
          [{ id := "cwmp:Acme:001122:Router:SN1", oui := "001122"
           , productClass := "Router", serialNumber := "SN1"
           , manufacturer := "Acme", hardwareVersion := ""
           , softwareVersion := "1.0", connectionRequestURL := ""
           , lastInform := 0, ipAddress := "", parameters := []
           , createdAt := 0, updatedAt := 0 }]
      , acs := { sessions := [] } }
      { manufacturer := "Acme", oui := "001122", productClass := "Router"
      , serialNumber := "SN1" } [] 1).2 =
      some "E11000 duplicate key error" :=
  (c1_second_registration_overwrites
    { devices := []
    , dbDevices :=
        [{ id := "cwmp:Acme:001122:Router:SN1", oui := "001122"
         , productClass := "Router", serialNumber := "SN1"
         , manufacturer := "Acme", hardwareVersion := ""
         , softwareVersion := "1.0", connectionRequestURL := ""
         , lastInform := 0, ipAddress := "", parameters := []
         , createdAt := 0, updatedAt := 0 }]
    , acs := { sessions := [] } }
    { manufacturer := "Acme", oui := "001122", productClass := "Router"
    , serialNumber := "SN1" } [] 1 (by decide)).1

/-- C2 counterexample: a well-formed Inform envelope carrying
`cwmp:ID = "1234"` is answered with a response envelope whose header ID
is the empty string — the cwmp:ID SOAP header is not echoed. -/
theorem c2_counterexample :
    ((processSOAPRequest { sessions := [] }
        { soapNS := "http://schemas.xmlsoap.org/soap/envelope/"
        , cwmpNS := "urn:dslforum-org:cwmp-1-2"
        , xsiNS := "", xsdNS := ""
        , header := some { id := "1234", holdRequests := false
                         , noMoreRequests := false, sessionTimeout := 0 }
        , body := SOAPBodyContent.inform
            { deviceId := { manufacturer := "Acme", oui := "001122"
                          , productClass := "Router", serialNumber := "SN1" }
            , event := [{ eventCode := "2 PERIODIC", commandKey := "" }]
            , maxEnvelopes := 1, currentTime := 0, retryCount := 0
            , parameterList := [] } }
        0).2.toOption.bind (fun r => r.header.map SOAPHeader.id)) = some ""
    ∧ some "" ≠ some "1234" := by
  decide

/-- C2 amended: the session engine does not preserve the inbound
`cwmp:ID`: every response envelope `processSOAPRequest` successfully
produces carries a freshly constructed header whose ID field is the
empty string, whatever the request's header carried. -/
theorem c2_response_header_id_empty (acs : AcsState)
    (envelope : SOAPEnvelope) (now : Nat) (r : SOAPEnvelope)
    (h : (processSOAPRequest acs envelope now).2 = Except.ok r) :
    r.header.map SOAPHeader.id = some "" := by
  cases hb : envelope.body with
  | inform i =>
      rw [processSOAPRequest] at h
      simp only [hb] at h
      obtain rfl : (handleInform acs i freshResponseEnvelope now).2 = r := by
        simpa using h
      simp [handleInform, setNoMoreRequests, freshResponseEnvelope]
  | informResponse x =>
      rw [processSOAPRequest] at h
      simp [hb] at h
  | empty =>
      rw [processSOAPRequest] at h
      simp only [hb] at h
      obtain rfl : freshResponseEnvelope = r := by simpa using h
      simp [freshResponseEnvelope]
  | getParameterValuesResponse x =>
      rw [processSOAPRequest] at h
      simp only [hb] at h
      obtain rfl : setNoMoreRequests freshResponseEnvelope = r := by simpa using h
      simp [setNoMoreRequests, freshResponseEnvelope]
  | setParameterValuesResponse x =>
      rw [processSOAPRequest] at h
      simp only [hb] at h
      obtain rfl : setNoMoreRequests freshResponseEnvelope = r := by simpa using h
      simp [setNoMoreRequests, freshResponseEnvelope]
  | fault f =>
      rw [processSOAPRequest] at h
      simp only [hb] at h
      obtain rfl : freshResponseEnvelope = r := by simpa using h
      simp [freshResponseEnvelope]

/-- Witness for C2's amended statement on an empty-bodied request. -/
theorem c2_response_header_id_empty_witness :
    freshResponseEnvelope.header.map SOAPHeader.id = some "" :=
  c2_response_header_id_empty { sessions := [] }
    { soapNS := "http://schemas.xmlsoap.org/soap/envelope/"
    , cwmpNS := "urn:dslforum-org:cwmp-1-2"
    , xsiNS := "", xsdNS := ""
    , header := some { id := "abc", holdRequests := false
                     , noMoreRequests := false, sessionTimeout := 0 }
    , body := SOAPBodyContent.empty }
    0 freshResponseEnvelope rfl

/-- C4 at the failing input (the legacy bootstrap Inform of the spec's
scenario 1): the server does answer HTTP 200 with
`InformResponse{MaxEnvelopes = 1}`, but the complete state effect of the
request is one session-map entry — `AcsServer` carries no device
registry and no parameter store, the `storeDeviceParameters` call is
commented out in the source, so the device is not registered and the
Inform's parameter list is not stored anywhere. -/
theorem c4_inform_answered_but_nothing_stored :
    handleCwmpRequest { sessions := [] }
      (ReqBody.envelope
        { soapNS := "http://schemas.xmlsoap.org/soap/envelope/"
        , cwmpNS := "urn:dslforum-org:cwmp-1-2"
        , xsiNS := "", xsdNS := ""
        , header := some { id := "100", holdRequests := false
                         , noMoreRequests := false, sessionTimeout := 0 }
        , body := SOAPBodyContent.inform
            { deviceId := { manufacturer := "Acme", oui := "001122"
                          , productClass := "Router", serialNumber := "SN1" }
            , event := [{ eventCode := "0 BOOTSTRAP", commandKey := "" }]
            , maxEnvelopes := 1, currentTime := 0, retryCount := 0
            , parameterList :=
                [{ name := "Device.DeviceInfo.SoftwareVersion"
                 , value := "1.2.3", type := "string" }] } })
      5 =
    ({ sessions :=
        [("Acme-001122-Router-SN1",
          { deviceId := "Acme-001122-Router-SN1"
          , sessionId := "session-5", createdTime := 5, lastActivity := 5
          , holdRequests := false, maxEnvelopes := 1
          , state := SessionState.inform, pendingRPCs := [] })] },
     { status := 200
     , body :=
        [RespChunk.xmlHeader,
         RespChunk.envelopeXml
           { soapNS := "http://schemas.xmlsoap.org/soap/envelope/"
           , cwmpNS := "urn:dslforum-org:cwmp-1-2"
           , xsiNS := "http://www.w3.org/2001/XMLSchema-instance"
           , xsdNS := "http://www.w3.org/2001/XMLSchema"
           , header := some { id := "", holdRequests := false
                            , noMoreRequests := true, sessionTimeout := 0 }
           , body := SOAPBodyContent.informResponse { maxEnvelopes := 1 } }] }) := by
  decide

/-- C5 counterexample: a POST whose body fails SOAP parsing is answered
with HTTP 500 carrying a SOAP fault envelope — a response that neither
ends the session with 204 nor is a 200 OK, refuting "every
non-terminating response is 200 OK". -/
theorem c5_counterexample :
    (handleCwmpRequest { sessions := [] } ReqBody.malformed 0).2.status = 500
    ∧ (handleCwmpRequest { sessions := [] } ReqBody.malformed 0).2.body ≠ []
    ∧ ¬((handleCwmpRequest { sessions := [] } ReqBody.malformed 0).2.status = 200
        ∨ (handleCwmpRequest { sessions := [] } ReqBody.malformed 0).2.status = 204) := by
  decide

/-- C5 amended: an empty POST (session over, nothing to send) is
answered 204 with an empty wire body — the XML the handler writes is
discarded because HTTP forbids a body on 204; every 200 response carries
`xml.Header` plus one SOAP envelope; and the only statuses the handler
produces are 200, 204, 400 (body read failure) and 500 (SOAP fault) —
so not every non-204 response is a 200. -/
theorem c5_response_statuses (acs : AcsState) (req : ReqBody) (now : Nat) :
    (req = ReqBody.empty →
      (handleCwmpRequest acs req now).2 = { status := 204, body := [] }) ∧
    ((handleCwmpRequest acs req now).2.status = 200 →
      ∃ e, (handleCwmpRequest acs req now).2.body =
        [RespChunk.xmlHeader, RespChunk.envelopeXml e]) ∧
    ((handleCwmpRequest acs req now).2.status = 200 ∨
     (handleCwmpRequest acs req now).2.status = 204 ∨
     (handleCwmpRequest acs req now).2.status = 400 ∨
     (handleCwmpRequest acs req now).2.status = 500) := by
  cases req with
  | readError =>
      refine ⟨?_, ?_, ?_⟩
      · intro h
        simp at h
      · intro h
        exact absurd (show (400 : Nat) = 200 from h) (by decide)
      · exact Or.inr (Or.inr (Or.inl rfl))
  | empty =>
      refine ⟨?_, ?_, ?_⟩
      · intro h
        rfl
      · intro h
        exact absurd (show (204 : Nat) = 200 from h) (by decide)
      · exact Or.inr (Or.inl rfl)
  | malformed =>
      refine ⟨?_, ?_, ?_⟩
      · intro h
        simp at h
      · intro h
        exact absurd (show (500 : Nat) = 200 from h) (by decide)
      · exact Or.inr (Or.inr (Or.inr rfl))
  | envelope e =>
      rcases hpr : (processSOAPRequest acs e now).2 with msg | response
      · refine ⟨?_, ?_, ?_⟩
        · intro h
          simp at h
        · intro h
          rw [handleCwmpRequest] at h
          simp only [hpr] at h
          exact absurd (show (500 : Nat) = 200 from h) (by decide)
        · rw [handleCwmpRequest]
          simp only [hpr]
          exact Or.inr (Or.inr (Or.inr rfl))
      · refine ⟨?_, ?_, ?_⟩
        · intro h
          simp at h
        · intro h
          rw [handleCwmpRequest]
          simp only [hpr]
          exact ⟨response, rfl⟩
        · rw [handleCwmpRequest]
          simp only [hpr]
          exact Or.inl rfl

/-- Witness for C5's amended statement on a concrete empty POST. -/
theorem c5_response_statuses_witness :
    (handleCwmpRequest { sessions := [] } ReqBody.empty 0).2 =
      { status := 204, body := [] } :=
  (c5_response_statuses { sessions := [] } ReqBody.empty 0).1 rfl

/-- C8 counterexample: with one RPC queued for device `d`, the next
empty POST is answered by the empty 204 response — it does not receive
the oldest queued RPC — and the RPC is still in the queue afterwards:
the per-device queue is never drained. -/
theorem c8_counterexample :
    (handleCwmpRequest
      { sessions :=
          [("d", { deviceId := "d", sessionId := "s", createdTime := 0
                 , lastActivity := 0, holdRequests := false
                 , maxEnvelopes := 1, state := SessionState.inform
                 , pendingRPCs := [QueuedRPC.reboot "ck"] })] }
      ReqBody.empty 7).2 = { status := 204, body := [] }
    ∧ (mapLookup
        (handleCwmpRequest
          { sessions :=
              [("d", { deviceId := "d", sessionId := "s", createdTime := 0
                     , lastActivity := 0, holdRequests := false
                     , maxEnvelopes := 1, state := SessionState.inform
                     , pendingRPCs := [QueuedRPC.reboot "ck"] })] }
          ReqBody.empty 7).1.sessions "d").map CwmpSession.pendingRPCs
      = some [QueuedRPC.reboot "ck"] := by
  decide

/-- C8 amended: `SendRPC` appends to the target session's `PendingRPCs`
queue, preserving FIFO order of submission, but no request-handling path
ever dequeues: every HTTP request leaves every existing session's queue
exactly as it was, so no queued RPC is ever put in flight. -/
theorem c8_queue_append_only_never_drained :
    (∀ (acs : AcsState) (deviceId : String) (rpc : QueuedRPC)
       (s : CwmpSession),
      mapLookup acs.sessions deviceId = some s →
      (mapLookup (SendRPC acs deviceId rpc).1.sessions deviceId).map
        CwmpSession.pendingRPCs = some (s.pendingRPCs ++ [rpc])) ∧
    (∀ (acs : AcsState) (req : ReqBody) (now : Nat) (dev : String)
       (s : CwmpSession),
      mapLookup acs.sessions dev = some s →
      (mapLookup (handleCwmpRequest acs req now).1.sessions dev).map
        CwmpSession.pendingRPCs = some s.pendingRPCs) := by
  constructor
  · intro acs deviceId rpc s h
    simp [SendRPC, h, mapLookup_mapInsert_self]
  · intro acs req now dev s h
    exact handleCwmpRequest_queue_preserved acs req now dev s h

/-- Witness for C8's amended statement: one enqueue on a live session. -/
theorem c8_queue_append_only_never_drained_witness :
    (mapLookup
      (SendRPC
        { sessions :=
            [("d", { deviceId := "d", sessionId := "s", createdTime := 0
                   , lastActivity := 0, holdRequests := false
                   , maxEnvelopes := 1, state := SessionState.inform
                   , pendingRPCs := [QueuedRPC.reboot "ck"] })] }
        "d" (QueuedRPC.getParameterValues ["Device."])).1.sessions
      "d").map CwmpSession.pendingRPCs
    = some ([QueuedRPC.reboot "ck"] ++ [QueuedRPC.getParameterValues ["Device."]]) :=
  c8_queue_append_only_never_drained.1
    { sessions :=
        [("d", { deviceId := "d", sessionId := "s", createdTime := 0
               , lastActivity := 0, holdRequests := false
               , maxEnvelopes := 1, state := SessionState.inform
               , pendingRPCs := [QueuedRPC.reboot "ck"] })] }
    "d" (QueuedRPC.getParameterValues ["Device."])
    { deviceId := "d", sessionId := "s", createdTime := 0
    , lastActivity := 0, holdRequests := false
    , maxEnvelopes := 1, state := SessionState.inform
    , pendingRPCs := [QueuedRPC.reboot "ck"] }
    (by decide)

end OpenUsp
